import Mathlib

/-!
Shallow embedding of the client-side image cache of
`assistflow-chat-ui` (source: `src/unnamed/part_003`, class
`ImageCacheManager` plus the `useCachedImage` hook).

Modelling conventions:
* Binary payloads (`Blob`) are opaque and modelled as `Nat`.
* The IndexedDB object store (keyPath `url`) is a list of `CachedImage`
  records; `put` upserts by `url`, `delete` removes by `url`.
* Timestamps are `Int` milliseconds, so `now - timestamp` is exact JS
  arithmetic.
* `URL.createObjectURL` returns a browser-chosen opaque `blob:` string,
  fresh on every call; we model the mint as an injective function of a
  per-state registry of issued references (`CacheState.registry`), the
  minted string being `mkBlobUrl` of the registry index.  Likewise
  `FileReader.readAsDataURL` yields an opaque `data:` string determined by
  the blob, modelled by the injective `mkDataUrl`.
* Collaborator behaviour (store availability, network fetch outcome,
  `put` outcome, reader outcome) is an explicit environment `Env`.
* A thrown/rejected JS error is an `Except.error`; `try/catch` is an
  explicit `match` on the `Except`.  Each operation returns its result
  together with the updated `CacheState`; `fetchCount` instruments how
  many times `fetch(url)` was invoked.
-/

/-- Opaque binary payload (the `Blob` contents). -/
abbrev Blob := Nat

/-- The record type stored in the `images` object store (interface
`CachedImage` in the source). -/
structure CachedImage where
  url : String
  blob : Blob
  timestamp : Int
  messageId : Option String
deriving DecidableEq, Repr

/-- `CACHE_EXPIRY = 7 * 24 * 60 * 60 * 1000` (7 days in ms). -/
def CACHE_EXPIRY : Int := 7 * 24 * 60 * 60 * 1000

/-- Observable state: the object store contents, the registry of object
URLs minted so far (`URL.createObjectURL` calls), and the number of
network fetches triggered so far. -/
structure CacheState where
  store : List CachedImage
  registry : List Blob
  fetchCount : Nat
deriving DecidableEq, Repr

/-- Errors thrown inside the manager (JS `Error` values, identified by
their origin). -/
inductive CacheErr where
  | dbUnavailable
  | fetchFailed
  | putFailed
  | readerFailed
deriving DecidableEq, Repr

/-- Collaborator behaviour: whether `init` succeeds and yields a usable
`db` handle, the network fetch outcome per url (`none` = non-2xx response
or transport error), whether `store.put` succeeds, and whether the
`FileReader` conversion succeeds. -/
structure Env where
  dbAvailable : Bool
  fetchResult : String → Option Blob
  putOk : Bool
  readerOk : Bool

/-- The opaque `blob:` object-URL string minted for the `n`-th registry
entry.  The browser's actual text is unspecified apart from its scheme
and per-mint uniqueness, so any injective `blob:`-prefixed encoding is a
faithful model. -/
def mkBlobUrl (n : Nat) : String :=
  ⟨'b' :: 'l' :: 'o' :: 'b' :: ':' :: List.replicate n 'x'⟩

/-- The opaque `data:` URI produced by `FileReader.readAsDataURL` for a
blob; injective in the blob, `data:`-prefixed. -/
def mkDataUrl (b : Blob) : String :=
  ⟨'d' :: 'a' :: 't' :: 'a' :: ':' :: List.replicate b 'x'⟩

/-- `store.get(url)`: the record stored under key `url`, if any. -/
def storeGet (st : CacheState) (url : String) : Option CachedImage :=
  st.store.find? (fun e => e.url == url)

/-- `URL.createObjectURL(blob)`: mint a fresh object URL for `blob`. -/
def createObjectURL (st : CacheState) (b : Blob) : String × CacheState :=
  (mkBlobUrl st.registry.length, { st with registry := st.registry ++ [b] })

/-- `store.put(rec)`: upsert by `url`; fails when the environment's store
write fails (e.g. quota exceeded), leaving the store unchanged. -/
def putImage (env : Env) (st : CacheState) (rec : CachedImage) :
    Except CacheErr CacheState :=
  if env.putOk then
    .ok { st with store := rec :: st.store.filter (fun e => e.url != rec.url) }
  else
    .error .putFailed

/-- `removeCachedImage(url)` (lines 119-130): delete by key; a missing
store or any error is swallowed (no-op). -/
def removeCachedImage (env : Env) (st : CacheState) (url : String) :
    CacheState :=
  if env.dbAvailable then
    { st with store := st.store.filter (fun e => e.url != url) }
  else st

/-- `getCachedImage(url)` (lines 86-117): on a fresh hit mint and return
a new object URL for the stored blob; on an expired hit delete the entry
and miss; on a miss or any store error return `null` (`none`). -/
def getCachedImage (env : Env) (now : Int) (st : CacheState) (url : String) :
    Option String × CacheState :=
  if env.dbAvailable then
    match storeGet st url with
    | none => (none, st)
    | some r =>
      if now - r.timestamp < CACHE_EXPIRY then
        let (u, st') := createObjectURL st r.blob
        (some u, st')
      else
        (none, removeCachedImage env st url)
  else (none, st)

/-- `getCachedImageBlob(url)` (lines 228-259): same resolution as
`getCachedImage` but returns the raw blob without minting a URL. -/
def getCachedImageBlob (env : Env) (now : Int) (st : CacheState)
    (url : String) : Option Blob × CacheState :=
  if env.dbAvailable then
    match storeGet st url with
    | none => (none, st)
    | some r =>
      if now - r.timestamp < CACHE_EXPIRY then
        (some r.blob, st)
      else
        (none, removeCachedImage env st url)
  else (none, st)

/-- The `try` body of `cacheImage(url, messageId)` (lines 48-84), before
the surrounding `catch`: init (throws when the store cannot be opened),
consult the cache, otherwise fetch (counted), `put` the record, and mint
an object URL for the fetched blob. -/
def cacheImageTry (env : Env) (now : Int) (st : CacheState) (url : String)
    (messageId : Option String) : Except CacheErr String × CacheState :=
  if env.dbAvailable then
    match getCachedImage env now st url with
    | (some cached, st₁) => (.ok cached, st₁)
    | (none, st₁) =>
      match env.fetchResult url with
      | none => (.error .fetchFailed, { st₁ with fetchCount := st₁.fetchCount + 1 })
      | some blob =>
        let st₂ := { st₁ with fetchCount := st₁.fetchCount + 1 }
        match putImage env st₂ ⟨url, blob, now, messageId⟩ with
        | .error e => (.error e, st₂)
        | .ok st₃ =>
          let (u, st₄) := createObjectURL st₃ blob
          (.ok u, st₄)
  else (.error .dbUnavailable, st)

/-- `cacheImage(url, messageId)` (lines 48-84): the `try` body with its
`catch`, which logs and returns the original `url` on any failure. -/
def cacheImage (env : Env) (now : Int) (st : CacheState) (url : String)
    (messageId : Option String) : String × CacheState :=
  match cacheImageTry env now st url messageId with
  | (.ok r, st') => (r, st')
  | (.error _, st') => (url, st')

/-- `urlToBase64(url)` (lines 178-226): init (throws when the store
cannot be opened), consult the cache for the blob, otherwise fetch
(counted) and `put`, then convert the blob to a `data:` URI with the
`FileReader`.  The surrounding `catch` logs and rethrows, so every error
propagates to the caller. -/
def urlToBase64 (env : Env) (now : Int) (st : CacheState) (url : String) :
    Except CacheErr String × CacheState :=
  if env.dbAvailable then
    match getCachedImageBlob env now st url with
    | (some b, st₁) =>
      if env.readerOk then (.ok (mkDataUrl b), st₁)
      else (.error .readerFailed, st₁)
    | (none, st₁) =>
      match env.fetchResult url with
      | none => (.error .fetchFailed, { st₁ with fetchCount := st₁.fetchCount + 1 })
      | some blob =>
        let st₂ := { st₁ with fetchCount := st₁.fetchCount + 1 }
        match putImage env st₂ ⟨url, blob, now, none⟩ with
        | .error e => (.error e, st₂)
        | .ok st₃ =>
          if env.readerOk then (.ok (mkDataUrl blob), st₃)
          else (.error .readerFailed, st₃)
  else (.error .dbUnavailable, st)

/-- `clearExpiredCache()` (lines 132-153): cursor over the `timestamp`
index up to `cutoff = Date.now() - CACHE_EXPIRY` (inclusive upper bound),
deleting every visited record; no-op when the store is unavailable. -/
def clearExpiredCache (env : Env) (now : Int) (st : CacheState) :
    CacheState :=
  if env.dbAvailable then
    { st with store := st.store.filter (fun e => !(e.timestamp ≤ now - CACHE_EXPIRY)) }
  else st

/-- `getCacheSize()` (lines 155-172): `store.count()` — the number of
records physically present; `0` on any error. -/
def getCacheSize (env : Env) (st : CacheState) : Nat :=
  if env.dbAvailable then st.store.length else 0

/-- The local/embedded prefix test of the `useCachedImage` hook
(line 277): `url.startsWith('blob:') || url.startsWith('data:')`, stated
on the character lists (`s.startsWith p` holds exactly when `p.data` is
a prefix of `s.data`). -/
def isLocalRef (url : String) : Bool :=
  "blob:".data.isPrefixOf url.data || "data:".data.isPrefixOf url.data

/-- The resolution performed by the `useCachedImage` hook's effect
(lines 270-287): `null` stays `null`; an already-local `blob:`/`data:`
value is used directly with no cache interaction; otherwise the url is
resolved through `cacheImage`.  This is the consumer-facing
`fetchOrServe` path. -/
def useCachedImageResolve (env : Env) (now : Int) (st : CacheState)
    (url : Option String) (messageId : Option String) :
    Option String × CacheState :=
  match url with
  | none => (none, st)
  | some u =>
    if isLocalRef u then (some u, st)
    else
      let (r, st') := cacheImage env now st u messageId
      (some r, st')

/-!  Interleaving model of `init()` (lines 24-46), for the concurrency
claim about lazy initialization.

The body of `init` first checks `this.isInitialized` and, when false,
synchronously issues `indexedDB.open` (the `Promise` executor runs
synchronously); the caller then suspends until the `onsuccess` callback
sets `this.db` and `this.isInitialized`.  So each logical `init` call is
two atomic steps separated by one suspension point:

* `check`: read `isInitialized`; if set, complete at once; otherwise
  issue an open (counted) and suspend;
* `complete`: the `onsuccess` callback stores the handle, sets the flag,
  and resumes the caller. -/

/-- Shared manager fields touched by `init`, plus a count of
`indexedDB.open` invocations. -/
structure InitState where
  isInitialized : Bool
  db : Option Unit
  openCount : Nat
deriving DecidableEq, Repr

/-- Progress of one logical `init()` call. -/
inductive InitPhase where
  | notStarted
  | opening
  | done
deriving DecidableEq, Repr

/-- One atomic step of a task running `init()`. -/
def initStep (g : InitState) (p : InitPhase) : InitState × InitPhase :=
  match p with
  | .notStarted =>
    if g.isInitialized then (g, .done)
    else ({ g with openCount := g.openCount + 1 }, .opening)
  | .opening => ({ g with isInitialized := true, db := some () }, .done)
  | .done => (g, .done)

/-- Two tasks concurrently running `init()` against the shared manager
state. -/
structure InitSys where
  g : InitState
  p₁ : InitPhase
  p₂ : InitPhase
deriving DecidableEq, Repr

/-- Run one step of the chosen task (`true` = first task). -/
def initSched (s : InitSys) (who : Bool) : InitSys :=
  if who then
    let (g', p') := initStep s.g s.p₁
    { s with g := g', p₁ := p' }
  else
    let (g', p') := initStep s.g s.p₂
    { s with g := g', p₂ := p' }

/-- Run a schedule (a list of task choices). -/
def initRun (s : InitSys) (sched : List Bool) : InitSys :=
  sched.foldl initSched s

/-- Fresh process state: store not yet opened, both tasks about to make
their first call. -/
def initFresh : InitSys :=
  ⟨⟨false, none, 0⟩, .notStarted, .notStarted⟩

/-! Concrete environments and states used by witnesses and
counterexamples. -/

/-- All collaborators succeed; the network returns blob `42`. -/
def envOkW : Env := ⟨true, fun _ => some 42, true, true⟩

/-- The store works but every network fetch fails. -/
def envFetchFailW : Env := ⟨true, fun _ => none, true, true⟩

/-- Fetch succeeds (blob `7`) but every store write fails. -/
def envPutFailW : Env := ⟨true, fun _ => some 7, false, true⟩

/-- The persistence backend cannot be opened; fetch would succeed. -/
def envNoDbW : Env := ⟨false, fun _ => some 7, true, true⟩

/-- Empty cache. -/
def st0W : CacheState := ⟨[], [], 0⟩

/-- One entry for key `"u"`, stored at time `0` (expired once
`now ≥ CACHE_EXPIRY`). -/
def stExpiredW : CacheState := ⟨[⟨"u", 3, 0, none⟩], [], 0⟩

/-- One expired and one fresh entry, as seen at `now = CACHE_EXPIRY`. -/
def stMixW : CacheState :=
  ⟨[⟨"old", 1, 0, none⟩, ⟨"new", 2, CACHE_EXPIRY - 1, none⟩], [], 0⟩

/-- Same mixed store, used for the entry-count claim. -/
def stCountW : CacheState :=
  ⟨[⟨"old", 1, 0, none⟩, ⟨"new", 2, CACHE_EXPIRY - 1, none⟩], [], 0⟩

/-! Helper lemmas. -/

/-- Distinct registry indices mint distinct object URLs. -/
theorem mkBlobUrl_injective : Function.Injective mkBlobUrl := by
  intro m n h
  have h2 := congrArg (fun s => s.data.length) h
  simpa [mkBlobUrl] using h2

/-- A successful `getCachedImage` lookup returns the object URL minted at
the pre-call registry index. -/
theorem getCachedImage_some_shape (env : Env) (t : Int) (st : CacheState)
    (k : String) (u : String) (st' : CacheState)
    (h : getCachedImage env t st k = (some u, st')) :
    u = mkBlobUrl st.registry.length := by
  unfold getCachedImage at h
  split at h
  · split at h
    · simp at h
    · split at h
      · simp [createObjectURL] at h
        exact h.1.symm
      · simp at h
  · simp at h

/-- Every value the `try` body of `cacheImage` returns successfully is a
minted object URL. -/
theorem cacheImageTry_ok_shape (env : Env) (t : Int) (st : CacheState)
    (k : String) (mid : Option String) (r : String) (st' : CacheState)
    (h : cacheImageTry env t st k mid = (.ok r, st')) :
    ∃ i, r = mkBlobUrl i := by
  unfold cacheImageTry at h
  split at h
  · split at h
    next heq =>
      simp at h
      exact ⟨st.registry.length, (getCachedImage_some_shape env t st k _ _ heq ▸ h.1.symm)⟩
    next heq =>
      split at h
      · simp at h
      · by_cases hput : env.putOk
        · simp [putImage, hput, createObjectURL] at h
          exact ⟨_, h.1.symm⟩
        · simp [putImage, hput] at h
  · simp at h

/-- Index arithmetic for the second minted reference. -/
theorem getElemQ_append_pair (l : List Blob) (b : Blob) :
    (l ++ [b, b])[l.length + 1]? = some b := by
  induction l with
  | nil => rfl
  | cons a tl ih => simpa using ih

/-- `cacheImage` on an uncached key with a working store and successful
fetch: the record is upserted and a fresh object URL returned. -/
theorem cacheImage_miss_eq (env : Env) (t : Int) (st : CacheState)
    (k : String) (mid : Option String) (b : Blob)
    (hdb : env.dbAvailable = true) (hmiss : storeGet st k = none)
    (hfetch : env.fetchResult k = some b) (hput : env.putOk = true) :
    cacheImage env t st k mid =
      (mkBlobUrl st.registry.length,
       ⟨⟨k, b, t, mid⟩ :: st.store.filter (fun e => e.url != k),
        st.registry ++ [b], st.fetchCount + 1⟩) := by
  simp [cacheImage, cacheImageTry, getCachedImage, hdb, hmiss, hfetch,
    putImage, hput, createObjectURL]

/-- `cacheImage` on a fresh hit: no store mutation, no fetch, a fresh
object URL for the stored blob. -/
theorem cacheImage_hit_eq (env : Env) (t : Int) (st : CacheState)
    (k : String) (mid : Option String) (r : CachedImage)
    (hdb : env.dbAvailable = true) (hget : storeGet st k = some r)
    (hfresh : t - r.timestamp < CACHE_EXPIRY) :
    cacheImage env t st k mid =
      (mkBlobUrl st.registry.length,
       { st with registry := st.registry ++ [r.blob] }) := by
  simp [cacheImage, cacheImageTry, getCachedImage, hdb, hget, hfresh,
    createObjectURL]

/-- After `removeCachedImage`, the key is gone. -/
theorem storeGet_remove (env : Env) (st : CacheState) (k : String)
    (hdb : env.dbAvailable = true) :
    storeGet (removeCachedImage env st k) k = none := by
  simp only [removeCachedImage, hdb, if_true, storeGet]
  rw [List.find?_eq_none]
  intro x hx
  have hx2 := (List.mem_filter.mp hx).2
  simp only [bne_iff_ne, ne_eq, decide_eq_true_eq] at hx2
  simp [hx2]

/-- An expired entry makes `getCachedImage` delete it and miss. -/
theorem getCachedImage_expired_eq (env : Env) (t : Int) (st : CacheState)
    (k : String) (r : CachedImage) (hdb : env.dbAvailable = true)
    (hget : storeGet st k = some r)
    (hexp : CACHE_EXPIRY ≤ t - r.timestamp) :
    getCachedImage env t st k = (none, removeCachedImage env st k) := by
  simp [getCachedImage, hdb, hget, not_lt.mpr hexp]

/-- An expired entry makes `getCachedImageBlob` delete it and miss. -/
theorem getCachedImageBlob_expired_eq (env : Env) (t : Int) (st : CacheState)
    (k : String) (r : CachedImage) (hdb : env.dbAvailable = true)
    (hget : storeGet st k = some r)
    (hexp : CACHE_EXPIRY ≤ t - r.timestamp) :
    getCachedImageBlob env t st k = (none, removeCachedImage env st k) := by
  simp [getCachedImageBlob, hdb, hget, not_lt.mpr hexp]

/-- `cacheImage` after any lookup miss, with fetch and write succeeding. -/
theorem cacheImage_nohit_eq (env : Env) (t : Int) (st st₁ : CacheState)
    (k : String) (mid : Option String) (b : Blob)
    (hdb : env.dbAvailable = true)
    (hnone : getCachedImage env t st k = (none, st₁))
    (hfetch : env.fetchResult k = some b) (hput : env.putOk = true) :
    cacheImage env t st k mid =
      (mkBlobUrl st₁.registry.length,
       ⟨⟨k, b, t, mid⟩ :: st₁.store.filter (fun e => e.url != k),
        st₁.registry ++ [b], st₁.fetchCount + 1⟩) := by
  simp [cacheImage, cacheImageTry, hdb, hnone, hfetch, putImage, hput,
    createObjectURL]

/-- `urlToBase64` after any lookup miss, with fetch and write
succeeding. -/
theorem urlToBase64_nohit_eq (env : Env) (t : Int) (st st₁ : CacheState)
    (k : String) (b : Blob)
    (hdb : env.dbAvailable = true)
    (hnone : getCachedImageBlob env t st k = (none, st₁))
    (hfetch : env.fetchResult k = some b) (hput : env.putOk = true) :
    urlToBase64 env t st k =
      ((if env.readerOk then .ok (mkDataUrl b) else .error .readerFailed),
       ⟨⟨k, b, t, none⟩ :: st₁.store.filter (fun e => e.url != k),
        st₁.registry, st₁.fetchCount + 1⟩) := by
  simp [urlToBase64, hdb, hnone, hfetch, putImage, hput]
  split <;> rfl

/-- In a store whose keys are distinct, `find?` on a member's key returns
that member. -/
theorem find?_key_of_mem_nodup (l : List CachedImage) (e : CachedImage)
    (hmem : e ∈ l) (hnd : (l.map (fun x => x.url)).Nodup) :
    l.find? (fun x => x.url == e.url) = some e := by
  induction l with
  | nil => cases hmem
  | cons a tl ih =>
    rcases List.mem_cons.mp hmem with rfl | hmem'
    · simp [List.find?]
    · have hnd' : (tl.map (fun x => x.url)).Nodup :=
        (List.nodup_cons.mp (by simpa using hnd)).2
      have hnotin : a.url ∉ tl.map (fun x => x.url) :=
        (List.nodup_cons.mp (by simpa using hnd)).1
      have hne : (a.url == e.url) = false := by
        rw [beq_eq_false_iff_ne]
        intro hcontra
        exact hnotin (hcontra ▸ List.mem_map.mpr ⟨e, hmem', rfl⟩)
      simp only [List.find?, hne]
      exact ih hmem' hnd'

/-! Claim theorems. -/

/-- C1: for every input key and every combination of collaborator
failures (store-unavailable, fetch failure, write failure),
`cacheImage` never propagates an error: whenever its `try` body throws it
returns the original locator, and whenever the body succeeds it returns
that value, which is always a freshly minted local object URL. -/
theorem cacheImage_never_throws (env : Env) (t : Int) (st : CacheState)
    (k : String) (mid : Option String) :
    (∀ e st', cacheImageTry env t st k mid = (.error e, st') →
      cacheImage env t st k mid = (k, st')) ∧
    (∀ r st', cacheImageTry env t st k mid = (.ok r, st') →
      cacheImage env t st k mid = (r, st') ∧ ∃ i, r = mkBlobUrl i) := by
  constructor
  · intro e st' h
    simp [cacheImage, h]
  · intro r st' h
    exact ⟨by simp [cacheImage, h], cacheImageTry_ok_shape env t st k mid r st' h⟩

theorem cacheImage_never_throws_witness :
    cacheImageTry ⟨true, fun _ => none, true, true⟩ 0 ⟨[], [], 0⟩ "u" none
        = (.error .fetchFailed, ⟨[], [], 1⟩) ∧
    cacheImage ⟨true, fun _ => none, true, true⟩ 0 ⟨[], [], 0⟩ "u" none
        = ("u", ⟨[], [], 1⟩) :=
  ⟨rfl, (cacheImage_never_throws ⟨true, fun _ => none, true, true⟩ 0 ⟨[], [], 0⟩
      "u" none).1 .fetchFailed ⟨[], [], 1⟩ rfl⟩

/-- C2: on a key not previously cached (working store, successful fetch
and write) `cacheImage` triggers exactly one fetch and stores the blob;
a second call on the same key within the TTL window triggers zero
additional fetches and returns a freshly minted object URL — distinct
from the first call's — whose registry entry is the stored blob, leaving
the stored record unchanged. -/
theorem cacheImage_fetch_once_then_hit (env : Env) (t₁ t₂ : Int)
    (st : CacheState) (k : String) (mid : Option String) (b : Blob)
    (hdb : env.dbAvailable = true) (hmiss : storeGet st k = none)
    (hfetch : env.fetchResult k = some b) (hput : env.putOk = true)
    (httl : t₂ - t₁ < CACHE_EXPIRY) :
    (cacheImage env t₁ st k mid).2.fetchCount = st.fetchCount + 1 ∧
    (cacheImage env t₂ (cacheImage env t₁ st k mid).2 k mid).2.fetchCount
      = (cacheImage env t₁ st k mid).2.fetchCount ∧
    storeGet (cacheImage env t₁ st k mid).2 k = some ⟨k, b, t₁, mid⟩ ∧
    (cacheImage env t₂ (cacheImage env t₁ st k mid).2 k mid).1
      = mkBlobUrl (st.registry.length + 1) ∧
    (cacheImage env t₂ (cacheImage env t₁ st k mid).2 k mid).1
      ≠ (cacheImage env t₁ st k mid).1 ∧
    ((cacheImage env t₂ (cacheImage env t₁ st k mid).2 k mid).2.registry)[st.registry.length + 1]?
      = some b ∧
    storeGet (cacheImage env t₂ (cacheImage env t₁ st k mid).2 k mid).2 k
      = storeGet (cacheImage env t₁ st k mid).2 k := by
  have e₁ := cacheImage_miss_eq env t₁ st k mid b hdb hmiss hfetch hput
  have hget₂ : storeGet (cacheImage env t₁ st k mid).2 k = some ⟨k, b, t₁, mid⟩ := by
    rw [e₁]
    simp [storeGet]
  have e₂ := cacheImage_hit_eq env t₂ (cacheImage env t₁ st k mid).2 k mid
    ⟨k, b, t₁, mid⟩ hdb hget₂ (by simpa using httl)
  refine ⟨by rw [e₁], by rw [e₂], hget₂, ?_, ?_, ?_, ?_⟩
  · rw [e₂, e₁]
    simp
  · rw [e₂, e₁]
    intro hc
    simp only [] at hc
    have hinj := mkBlobUrl_injective hc
    simp at hinj
  · rw [e₂, e₁]
    show ((st.registry ++ [b]) ++ [b])[st.registry.length + 1]? = some b
    rw [List.append_assoc]
    exact getElemQ_append_pair st.registry b
  · rw [e₂]
    simp [storeGet]

theorem cacheImage_fetch_once_then_hit_witness :
    envOkW.dbAvailable = true ∧ storeGet st0W "u" = none ∧
    envOkW.fetchResult "u" = some 42 ∧ envOkW.putOk = true ∧
    ((1 : Int) - 0 < CACHE_EXPIRY) ∧
    ((cacheImage envOkW 0 st0W "u" none).2.fetchCount = 1 ∧
     (cacheImage envOkW 1 (cacheImage envOkW 0 st0W "u" none).2 "u" none).2.fetchCount
       = (cacheImage envOkW 0 st0W "u" none).2.fetchCount ∧
     storeGet (cacheImage envOkW 0 st0W "u" none).2 "u" = some ⟨"u", 42, 0, none⟩ ∧
     (cacheImage envOkW 1 (cacheImage envOkW 0 st0W "u" none).2 "u" none).1
       = mkBlobUrl 1 ∧
     (cacheImage envOkW 1 (cacheImage envOkW 0 st0W "u" none).2 "u" none).1
       ≠ (cacheImage envOkW 0 st0W "u" none).1 ∧
     ((cacheImage envOkW 1 (cacheImage envOkW 0 st0W "u" none).2 "u" none).2.registry)[1]?
       = some 42 ∧
     storeGet (cacheImage envOkW 1 (cacheImage envOkW 0 st0W "u" none).2 "u" none).2 "u"
       = storeGet (cacheImage envOkW 0 st0W "u" none).2 "u") :=
  ⟨rfl, rfl, rfl, rfl, by decide,
   cacheImage_fetch_once_then_hit envOkW 0 1 st0W "u" none 42 rfl rfl rfl rfl
     (by decide)⟩

/-- C3: an entry is expired exactly when `now - storedAt ≥ CACHE_EXPIRY`
(7 days): both lookups return nothing precisely in that case, the
expired entry is deleted by the lookup, and the next `cacheImage` or
`urlToBase64` on that key triggers a fresh fetch and stores a record
whose `timestamp` is the new insertion time. -/
theorem expiry_iff_and_refetch (env : Env) (t : Int) (st : CacheState)
    (k : String) (r : CachedImage) (mid : Option String) (b : Blob)
    (hdb : env.dbAvailable = true) (hget : storeGet st k = some r) :
    ((getCachedImage env t st k).1 = none ↔ CACHE_EXPIRY ≤ t - r.timestamp) ∧
    ((getCachedImageBlob env t st k).1 = none ↔ CACHE_EXPIRY ≤ t - r.timestamp) ∧
    (CACHE_EXPIRY ≤ t - r.timestamp →
      storeGet (getCachedImage env t st k).2 k = none ∧
      (env.fetchResult k = some b → env.putOk = true →
        (cacheImage env t st k mid).2.fetchCount = st.fetchCount + 1 ∧
        storeGet (cacheImage env t st k mid).2 k = some ⟨k, b, t, mid⟩ ∧
        (urlToBase64 env t st k).2.fetchCount = st.fetchCount + 1 ∧
        storeGet (urlToBase64 env t st k).2 k = some ⟨k, b, t, none⟩)) := by
  refine ⟨?_, ?_, ?_⟩
  · by_cases hfresh : t - r.timestamp < CACHE_EXPIRY
    · simp [getCachedImage, hdb, hget, hfresh, createObjectURL]
    · rw [getCachedImage_expired_eq env t st k r hdb hget (by omega)]
      simp
      omega
  · by_cases hfresh : t - r.timestamp < CACHE_EXPIRY
    · simp [getCachedImageBlob, hdb, hget, hfresh]
    · rw [getCachedImageBlob_expired_eq env t st k r hdb hget (by omega)]
      simp
      omega
  · intro hexp
    have hgci := getCachedImage_expired_eq env t st k r hdb hget hexp
    have hgcb := getCachedImageBlob_expired_eq env t st k r hdb hget hexp
    refine ⟨by rw [hgci]; exact storeGet_remove env st k hdb, ?_⟩
    intro hfetch hput
    have hc := cacheImage_nohit_eq env t st (removeCachedImage env st k) k mid
      b hdb hgci hfetch hput
    have hu := urlToBase64_nohit_eq env t st (removeCachedImage env st k) k
      b hdb hgcb hfetch hput
    rw [hc, hu]
    refine ⟨?_, ?_, ?_, ?_⟩
    · simp [removeCachedImage, hdb]
    · simp [storeGet, List.find?]
    · simp [removeCachedImage, hdb]
    · simp [storeGet, List.find?]

theorem expiry_iff_and_refetch_witness :
    envOkW.dbAvailable = true ∧
    storeGet stExpiredW "u" = some ⟨"u", 3, 0, none⟩ ∧
    (getCachedImage envOkW CACHE_EXPIRY stExpiredW "u").1 = none ∧
    (getCachedImageBlob envOkW CACHE_EXPIRY stExpiredW "u").1 = none ∧
    storeGet (getCachedImage envOkW CACHE_EXPIRY stExpiredW "u").2 "u" = none ∧
    (cacheImage envOkW CACHE_EXPIRY stExpiredW "u" none).2.fetchCount = 1 ∧
    storeGet (cacheImage envOkW CACHE_EXPIRY stExpiredW "u" none).2 "u"
      = some ⟨"u", 42, CACHE_EXPIRY, none⟩ ∧
    (urlToBase64 envOkW CACHE_EXPIRY stExpiredW "u").2.fetchCount = 1 ∧
    storeGet (urlToBase64 envOkW CACHE_EXPIRY stExpiredW "u").2 "u"
      = some ⟨"u", 42, CACHE_EXPIRY, none⟩ :=
  ⟨rfl, rfl,
   (expiry_iff_and_refetch envOkW CACHE_EXPIRY stExpiredW "u" ⟨"u", 3, 0, none⟩
     none 42 rfl rfl).1.mpr (by decide),
   (expiry_iff_and_refetch envOkW CACHE_EXPIRY stExpiredW "u" ⟨"u", 3, 0, none⟩
     none 42 rfl rfl).2.1.mpr (by decide),
   ((expiry_iff_and_refetch envOkW CACHE_EXPIRY stExpiredW "u" ⟨"u", 3, 0, none⟩
     none 42 rfl rfl).2.2 (by decide)).1,
   (((expiry_iff_and_refetch envOkW CACHE_EXPIRY stExpiredW "u" ⟨"u", 3, 0, none⟩
     none 42 rfl rfl).2.2 (by decide)).2 rfl rfl).1,
   (((expiry_iff_and_refetch envOkW CACHE_EXPIRY stExpiredW "u" ⟨"u", 3, 0, none⟩
     none 42 rfl rfl).2.2 (by decide)).2 rfl rfl).2.1,
   (((expiry_iff_and_refetch envOkW CACHE_EXPIRY stExpiredW "u" ⟨"u", 3, 0, none⟩
     none 42 rfl rfl).2.2 (by decide)).2 rfl rfl).2.2.1,
   (((expiry_iff_and_refetch envOkW CACHE_EXPIRY stExpiredW "u" ⟨"u", 3, 0, none⟩
     none 42 rfl rfl).2.2 (by decide)).2 rfl rfl).2.2.2⟩

/-- C4 (amended): when the store is working and the network fetch for an
uncached-or-expired key fails, `urlToBase64` propagates the fetch error,
writes no entry for that key and mints no reference; the store is
unchanged except possibly for the lazy deletion of an already-expired
entry under that key. -/
theorem urlToBase64_fetch_failure (env : Env) (t : Int) (st : CacheState)
    (k : String)
    (hdb : env.dbAvailable = true) (hfetch : env.fetchResult k = none)
    (hstale : ∀ r, storeGet st k = some r → CACHE_EXPIRY ≤ t - r.timestamp) :
    (urlToBase64 env t st k).1 = .error .fetchFailed ∧
    storeGet (urlToBase64 env t st k).2 k = none ∧
    (urlToBase64 env t st k).2.registry = st.registry ∧
    ((urlToBase64 env t st k).2.store = st.store ∨
     (urlToBase64 env t st k).2.store
       = st.store.filter (fun e => e.url != k)) := by
  cases hget : storeGet st k with
  | none =>
    have hgcb : getCachedImageBlob env t st k = (none, st) := by
      simp [getCachedImageBlob, hdb, hget]
    have heq : urlToBase64 env t st k
        = (.error .fetchFailed, { st with fetchCount := st.fetchCount + 1 }) := by
      simp [urlToBase64, hdb, hgcb, hfetch]
    rw [heq]
    exact ⟨rfl, hget, rfl, Or.inl rfl⟩
  | some r =>
    have hgcb := getCachedImageBlob_expired_eq env t st k r hdb hget
      (hstale r hget)
    have heq : urlToBase64 env t st k
        = (.error .fetchFailed,
           { removeCachedImage env st k with
             fetchCount := (removeCachedImage env st k).fetchCount + 1 }) := by
      simp [urlToBase64, hdb, hgcb, hfetch]
    rw [heq]
    refine ⟨rfl, storeGet_remove env st k hdb,
      by simp [removeCachedImage, hdb], Or.inr ?_⟩
    simp [removeCachedImage, hdb]

/-- C4 counterexample: with an expired entry present for the key, a
failed fetch still changes the store (the entry is lazily deleted), so
the claim's "store state unchanged by the failed call" is false as
stated. -/
theorem urlToBase64_fetch_failure_mutates_store :
    urlToBase64 envFetchFailW CACHE_EXPIRY stExpiredW "u"
      = (.error .fetchFailed, ⟨[], [], 1⟩) ∧
    stExpiredW.store ≠ [] :=
  ⟨rfl, by decide⟩

theorem urlToBase64_fetch_failure_witness :
    envFetchFailW.dbAvailable = true ∧
    envFetchFailW.fetchResult "u" = none ∧
    (urlToBase64 envFetchFailW CACHE_EXPIRY stExpiredW "u").1
      = .error .fetchFailed ∧
    storeGet (urlToBase64 envFetchFailW CACHE_EXPIRY stExpiredW "u").2 "u"
      = none :=
  ⟨rfl, rfl,
   (urlToBase64_fetch_failure envFetchFailW CACHE_EXPIRY stExpiredW "u" rfl rfl
     (by
       intro r hr
       have hr' : some (⟨"u", 3, 0, none⟩ : CachedImage) = some r := hr
       cases hr'
       decide)).1,
   (urlToBase64_fetch_failure envFetchFailW CACHE_EXPIRY stExpiredW "u" rfl rfl
     (by
       intro r hr
       have hr' : some (⟨"u", 3, 0, none⟩ : CachedImage) = some r := hr
       cases hr'
       decide)).2.1⟩

/-- C5 (amended): when the fetch succeeds but the store write fails, the
fetched content is not returned to the caller: `cacheImage` returns the
original locator (no reference is minted) and `urlToBase64` propagates
the write error; in both cases the content is not persisted (the state
changes only by the fetch counter). -/
theorem write_failure_returns_locator (env : Env) (t : Int) (st : CacheState)
    (k : String) (mid : Option String) (b : Blob)
    (hdb : env.dbAvailable = true) (hput : env.putOk = false)
    (hmiss : storeGet st k = none) (hfetch : env.fetchResult k = some b) :
    cacheImage env t st k mid
      = (k, { st with fetchCount := st.fetchCount + 1 }) ∧
    urlToBase64 env t st k
      = (.error .putFailed, { st with fetchCount := st.fetchCount + 1 }) := by
  constructor
  · simp [cacheImage, cacheImageTry, getCachedImage, hdb, hmiss, hfetch,
      putImage, hput]
  · simp [urlToBase64, getCachedImageBlob, hdb, hmiss, hfetch, putImage, hput]

/-- C5 counterexample: fetch succeeds (blob `7`) and the write fails, yet
`cacheImage` returns the original locator with an empty registry (no
displayable reference wrapping the content) and `urlToBase64` throws
instead of returning the data URI. -/
theorem write_failure_drops_content :
    cacheImage envPutFailW 0 st0W "u" none = ("u", ⟨[], [], 1⟩) ∧
    (urlToBase64 envPutFailW 0 st0W "u").1 = .error .putFailed ∧
    envPutFailW.fetchResult "u" = some 7 :=
  ⟨rfl, rfl, rfl⟩

theorem write_failure_returns_locator_witness :
    envPutFailW.dbAvailable = true ∧ envPutFailW.putOk = false ∧
    storeGet st0W "u" = none ∧ envPutFailW.fetchResult "u" = some 7 ∧
    cacheImage envPutFailW 0 st0W "u" none = ("u", ⟨[], [], 1⟩) ∧
    urlToBase64 envPutFailW 0 st0W "u" = (.error .putFailed, ⟨[], [], 1⟩) :=
  ⟨rfl, rfl, rfl, rfl,
   (write_failure_returns_locator envPutFailW 0 st0W "u" none 7
     rfl rfl rfl rfl).1,
   (write_failure_returns_locator envPutFailW 0 st0W "u" none 7
     rfl rfl rfl rfl).2⟩

/-- C6 (amended): when the persistence backend cannot be opened,
`cacheImage` returns the input key unchanged without raising and with no
state change; `urlToBase64` does not fall back to a direct fetch — it
propagates the store-unavailable error with no state change. -/
theorem store_unavailable_behavior (env : Env) (t : Int) (st : CacheState)
    (k : String) (mid : Option String) (hdb : env.dbAvailable = false) :
    cacheImage env t st k mid = (k, st) ∧
    urlToBase64 env t st k = (.error .dbUnavailable, st) := by
  constructor
  · simp [cacheImage, cacheImageTry, hdb]
  · simp [urlToBase64, hdb]

/-- C6 counterexample: with the backend unavailable and a network fetch
that would succeed (blob `7`), `urlToBase64` fails with the
store-unavailable error and performs zero fetches, instead of directly
fetching and returning the embedded representation. -/
theorem urlToBase64_no_direct_fetch :
    urlToBase64 envNoDbW 0 st0W "u" = (.error .dbUnavailable, st0W) ∧
    envNoDbW.fetchResult "u" = some 7 ∧
    (urlToBase64 envNoDbW 0 st0W "u").2.fetchCount = 0 :=
  ⟨rfl, rfl, rfl⟩

theorem store_unavailable_behavior_witness :
    envNoDbW.dbAvailable = false ∧
    cacheImage envNoDbW 0 st0W "u" none = ("u", st0W) ∧
    urlToBase64 envNoDbW 0 st0W "u" = (.error .dbUnavailable, st0W) :=
  ⟨rfl,
   (store_unavailable_behavior envNoDbW 0 st0W "u" none rfl).1,
   (store_unavailable_behavior envNoDbW 0 st0W "u" none rfl).2⟩

/-- C7: a key that already denotes a local or embedded reference
(`blob:`/`data:` prefix) is returned unchanged by the `useCachedImage`
resolution — the consumer-facing fetch-or-serve path — with the state
untouched: no store access, no minted reference, zero fetches. -/
theorem passthrough_local_ref (env : Env) (t : Int) (st : CacheState)
    (u : String) (mid : Option String) (hloc : isLocalRef u = true) :
    useCachedImageResolve env t st (some u) mid = (some u, st) := by
  simp [useCachedImageResolve, hloc]

theorem passthrough_local_ref_witness :
    isLocalRef "blob:x" = true ∧
    useCachedImageResolve envOkW 0 st0W (some "blob:x") none
      = (some "blob:x", st0W) :=
  ⟨by decide, passthrough_local_ref envOkW 0 st0W "blob:x" none (by decide)⟩

/-- C8: `clearExpiredCache` keeps exactly the entries whose age at sweep
time is below the TTL (so it deletes exactly the expired ones and leaves
every non-expired entry untouched), and running it twice at the same
time point equals running it once. -/
theorem clearExpired_exact_and_idempotent (env : Env) (t : Int)
    (st : CacheState) (hdb : env.dbAvailable = true) :
    (clearExpiredCache env t st).store
      = st.store.filter (fun e => decide (t - e.timestamp < CACHE_EXPIRY)) ∧
    clearExpiredCache env t (clearExpiredCache env t st)
      = clearExpiredCache env t st := by
  have hpt : ∀ e : CachedImage,
      (!(e.timestamp ≤ t - CACHE_EXPIRY)) = decide (t - e.timestamp < CACHE_EXPIRY) := by
    intro e
    by_cases h : e.timestamp ≤ t - CACHE_EXPIRY
    · simp [h]
      omega
    · simp [h]
      omega
  constructor
  · simp only [clearExpiredCache, hdb, if_true]
    exact List.filter_congr (fun e _ => hpt e)
  · simp only [clearExpiredCache, hdb, if_true, List.filter_filter]
    congr 1
    exact List.filter_congr (fun e _ => by simp)

theorem clearExpired_exact_and_idempotent_witness :
    envOkW.dbAvailable = true ∧
    (clearExpiredCache envOkW CACHE_EXPIRY stMixW).store
      = [⟨"new", 2, CACHE_EXPIRY - 1, none⟩] ∧
    clearExpiredCache envOkW CACHE_EXPIRY
        (clearExpiredCache envOkW CACHE_EXPIRY stMixW)
      = clearExpiredCache envOkW CACHE_EXPIRY stMixW :=
  ⟨rfl,
   (clearExpired_exact_and_idempotent envOkW CACHE_EXPIRY stMixW rfl).1,
   (clearExpired_exact_and_idempotent envOkW CACHE_EXPIRY stMixW rfl).2⟩

/-- C9 (amended): the store handle is memoized — once an `init` call has
completed, a later `init` call finishes immediately without opening the
store again; however concurrent first-use calls are not guarded by a
shared in-flight initialization (see the counterexample). -/
theorem init_memoized_after_completion (g : InitState)
    (h : g.isInitialized = true) :
    initStep g .notStarted = (g, .done) := by
  simp [initStep, h]

theorem init_memoized_after_completion_witness :
    (⟨true, some (), 1⟩ : InitState).isInitialized = true ∧
    initStep ⟨true, some (), 1⟩ .notStarted = (⟨true, some (), 1⟩, .done) :=
  ⟨rfl, init_memoized_after_completion ⟨true, some (), 1⟩ rfl⟩

/-- C9 counterexample: two concurrent first-use `init` calls, each
performing its `isInitialized` check before the other's open completes,
both open the store (`openCount = 2`), refuting "they all await the same
single in-flight initialization rather than racing to open the store
twice". -/
theorem init_concurrent_double_open :
    initRun initFresh [true, false, true, false]
      = ⟨⟨true, some (), 2⟩, .done, .done⟩ ∧
    (initRun initFresh [true, false, true, false]).g.openCount ≠ 1 :=
  ⟨rfl, by decide⟩

/-- C10: `getCacheSize` counts every record physically present —
including expired, unswept ones — so on a distinct-key store containing
an expired entry it strictly exceeds the number of entries a lookup
would still serve; expiry is evaluated by the lookup (`isSome` iff the
entry is fresh), never by the counter. -/
theorem getCacheSize_counts_expired (env : Env) (t : Int) (st : CacheState)
    (hdb : env.dbAvailable = true)
    (hnd : (st.store.map (fun e => e.url)).Nodup)
    (hex : ∃ e ∈ st.store, CACHE_EXPIRY ≤ t - e.timestamp) :
    getCacheSize env st = st.store.length ∧
    (st.store.filter (fun e => decide (t - e.timestamp < CACHE_EXPIRY))).length
      < getCacheSize env st ∧
    ∀ e ∈ st.store,
      ((getCachedImage env t st e.url).1.isSome
        ↔ t - e.timestamp < CACHE_EXPIRY) := by
  refine ⟨by simp [getCacheSize, hdb], ?_, ?_⟩
  · rw [show getCacheSize env st = st.store.length from by simp [getCacheSize, hdb]]
    rw [List.length_filter_lt_length_iff_exists]
    obtain ⟨e, hmem, hexp⟩ := hex
    exact ⟨e, hmem, by simp; omega⟩
  · intro e hmem
    have hget : storeGet st e.url = some e := find?_key_of_mem_nodup st.store e hmem hnd
    by_cases hfresh : t - e.timestamp < CACHE_EXPIRY
    · simp [getCachedImage, hdb, hget, hfresh, createObjectURL]
    · simp [getCachedImage, hdb, hget, hfresh]

theorem getCacheSize_counts_expired_witness :
    getCacheSize envOkW stCountW = 2 ∧
    1 < getCacheSize envOkW stCountW ∧
    ((getCachedImage envOkW CACHE_EXPIRY stCountW "old").1.isSome
      ↔ CACHE_EXPIRY - (0 : Int) < CACHE_EXPIRY) :=
  ⟨(getCacheSize_counts_expired envOkW CACHE_EXPIRY stCountW rfl (by decide)
      ⟨⟨"old", 1, 0, none⟩, by decide, by decide⟩).1,
   (getCacheSize_counts_expired envOkW CACHE_EXPIRY stCountW rfl (by decide)
      ⟨⟨"old", 1, 0, none⟩, by decide, by decide⟩).2.1,
   (getCacheSize_counts_expired envOkW CACHE_EXPIRY stCountW rfl (by decide)
      ⟨⟨"old", 1, 0, none⟩, by decide, by decide⟩).2.2 ⟨"old", 1, 0, none⟩
      (by decide)⟩
